import Mathlib

/-!
Shallow embedding of the LinkedIn content-generation orchestration layer
(LinkedIn_comment.py, LinkedIn_post.py, app.py).  Python strings are
modelled as Lean `String` (a list of code points); Python slicing
`s[:n]` becomes `String.mk (s.data.take n)`; the remote completion
outcome (message with optional refusal, parsed payload, token usage) is
passed in as explicit data, since the network call itself is external.
-/

/-- Membership test for the Python word-character class used by the
regular expression pattern of `extract_hashtags` (LinkedIn_post.py
line 206): letters, digits, or underscore (ASCII model). -/
def isWordChar (c : Char) : Bool := c.isAlphanum || c = '_'

/-- Model of the Python substring test `pat in hay` restricted to a
check that `pat` starts the list `hay`. -/
def py_startsWith : List Char → List Char → Bool
  | [], _ => true
  | _ :: _, [] => false
  | p :: ps, h :: hs => p == h && py_startsWith ps hs

/-- Model of the Python substring operator `pat in hay` over code-point
lists: true when `pat` occurs contiguously inside `hay`. -/
def py_contains (pat : List Char) : List Char → Bool
  | [] => pat.isEmpty
  | c :: rest => py_startsWith pat (c :: rest) || py_contains pat rest

/-- Model of Python `str.lower()`, character by character. -/
def py_lower (s : String) : String := String.mk (s.data.map Char.toLower)

/-- Model of Python `str.split()` with no arguments: split on runs of
whitespace, discarding empty pieces. -/
def py_split_ws (s : String) : List String :=
  (s.split Char.isWhitespace).filter (fun t => !t.isEmpty)

/-- Left-to-right non-overlapping scan implementing the semantics of
Python `re.findall` with the pattern hash-followed-by-word-characters
(`extract_hashtags`, LinkedIn_post.py lines 206 to 207).  At a hash
sign the scanner greedily takes the following word characters; a hash
not followed by a word character matches nothing and scanning resumes
at the next position.  The fuel argument bounds the iteration count;
each step consumes at least one character, so fuel equal to the length
of the input makes the zero-fuel case unreachable. -/
def scanHashtags : Nat → List Char → List (List Char)
  | 0, _ => []
  | _, [] => []
  | Nat.succ fuel, c :: rest =>
    if c = '#' then
      let w := rest.takeWhile isWordChar
      if w = [] then scanHashtags fuel rest
      else ('#' :: w) :: scanHashtags fuel (rest.drop w.length)
    else scanHashtags fuel rest

/-- Embedding of `extract_hashtags` (LinkedIn_post.py lines 204 to
208): `re.findall` of the hashtag pattern over the post text. -/
def extract_hashtags (post_text : String) : List String :=
  (scanHashtags post_text.data.length post_text.data).map String.mk

/-- Embedding of the `style_limits` dictionary of
`analyze_linkedin_comment` (LinkedIn_comment.py lines 29 to 34),
as the partial lookup underlying `dict.get`. -/
def style_limits (comment_style : String) : Option String :=
  if comment_style = "Professional" then some "1200"
  else if comment_style = "Friendly" then some "800"
  else if comment_style = "Long" then some "1250"
  else if comment_style = "Short" then some "400"
  else none

/-- Embedding of line 37 of LinkedIn_comment.py:
`style_limits.get(comment_style, "1000")`. -/
def character_limit (comment_style : String) : String :=
  (style_limits comment_style).getD "1000"

/-- Embedding of the length validation of
`generate_intelligent_linkedin_post` (LinkedIn_post.py lines 129 to
131): posts longer than 3000 characters are cut to their first 2950
characters with a three-dot ellipsis appended; shorter posts pass
through unchanged. -/
def truncate_post (generated_post : String) : String :=
  if generated_post.length > 3000 then
    String.mk (generated_post.data.take 2950) ++ "..."
  else generated_post

-- Basic facts about the String model used throughout.

theorem string_length_mk (l : List Char) : (String.mk l).length = l.length := rfl

theorem string_mk_append (l m : List Char) :
    String.mk l ++ String.mk m = String.mk (l ++ m) := rfl

theorem dots_eq : "..." = String.mk ['.', '.', '.'] := rfl

theorem truncate_post_of_gt {p : String} (h : p.length > 3000) :
    truncate_post p = String.mk (p.data.take 2950) ++ "..." := by
  simp [truncate_post, h]

theorem truncate_post_of_le {p : String} (h : p.length ≤ 3000) :
    truncate_post p = p := by
  simp [truncate_post]
  omega

theorem truncate_post_length_of_gt {p : String} (h : p.length > 3000) :
    (truncate_post p).length = 2953 := by
  rw [truncate_post_of_gt h, dots_eq, string_mk_append, string_length_mk,
    List.length_append, List.length_take]
  have hp : p.data.length = p.length := rfl
  simp [hp]
  omega

theorem truncate_post_length_le (p : String) :
    (truncate_post p).length ≤ 3000 := by
  by_cases h : p.length > 3000
  · rw [truncate_post_length_of_gt h]; omega
  · rw [truncate_post_of_le (by omega)]; omega

example : character_limit "Professional" = "1200" := rfl
example : character_limit "Custom" = "1000" := rfl
example : extract_hashtags "Great insight! #Leadership #Growth2024 see more" =
    ["#Leadership", "#Growth2024"] := by decide

/-- Schema of the structured comment payload (LinkedIn_comment.py
lines 17 to 20): three named string fields, one per comment variant. -/
structure linkedin_comment_model where
  linkedin_comment1 : String
  linkedin_comment2 : String
  linkedin_comment3 : String
deriving DecidableEq

/-- Wrapper schema `linkedin_comment_data` (LinkedIn_comment.py
lines 23 to 24). -/
structure linkedin_comment_data where
  linkedin_comment : linkedin_comment_model
deriving DecidableEq

/-- The part of a remote chat-completion message consulted by the
parse step of `analyze_linkedin_comment`: the optional refusal text and
the schema-parsed payload.  The payload field stands for
`message.parsed.linkedin_comment`, which the code reads only when the
refusal field is absent. -/
structure CommentMessage where
  refusal : Option String
  parsed : linkedin_comment_model

/-- Embedding of the parse tail of `analyze_linkedin_comment`
(LinkedIn_comment.py lines 133 to 141): given the completion message
and its reported total token count, return the pair the Python
function returns.  On refusal the reason is printed to the log and the
returned value is the pair of None and the token count; otherwise the
payload is rewrapped in `linkedin_comment_data` and returned with the
token count.  No field of the payload is inspected. -/
def analyze_linkedin_comment (analysis_response : CommentMessage)
    (total_tokens : Nat) : Option linkedin_comment_data × Nat :=
  match analysis_response.refusal with
  | some _ => (none, total_tokens)
  | none => (some ⟨analysis_response.parsed⟩, total_tokens)

/-- The strings carried by a value returned from the comment parse
step: the three variant texts when the payload is present, nothing
otherwise.  Used to state what a comment result does or does not
carry. -/
def comment_result_strings : Option linkedin_comment_data × Nat → List String
  | (none, _) => []
  | (some d, _) => [d.linkedin_comment.linkedin_comment1,
      d.linkedin_comment.linkedin_comment2,
      d.linkedin_comment.linkedin_comment3]

/-- One ranked result returned by the memory search
(`get_user_data`, user_activate_store.py lines 77 to 88): free-text
memory content, relevance score, creation timestamp. -/
structure MemResult where
  memory : String
  score : ℚ
  created_at : String
deriving DecidableEq

/-- Result of a memory read: the success flag and the ranked result
list, as returned by `get_user_data`. -/
structure UserDataResult where
  success : Bool
  results : List MemResult

/-- Line rendered for one retained preference entry
(LinkedIn_post.py line 184). -/
def prefLine (r : MemResult) : String := "- " ++ r.memory

/-- The accumulation loop of `format_user_preferences`
(LinkedIn_post.py lines 179 to 184): keep entries whose relevance
score exceeds 0.3, rendering each as a dash line. -/
def build_prefs : List MemResult → List String
  | [] => []
  | r :: rest =>
    if r.score > 0.3 then prefLine r :: build_prefs rest else build_prefs rest

/-- Embedding of `format_user_preferences` (LinkedIn_post.py lines 174
to 186). -/
def format_user_preferences (user_preferences : UserDataResult) : String :=
  if !user_preferences.success || user_preferences.results.isEmpty then
    "No previous preferences found - this is a new user."
  else
    let prefs := build_prefs user_preferences.results
    if prefs = [] then "No specific preferences identified."
    else String.intercalate "\n" prefs

/-- The topical keyword filter of `format_user_activity`
(LinkedIn_post.py line 198): the memory text contains the literal
tag of generated posts, or its lowercasing contains the word post. -/
def matchesKeyword (r : MemResult) : Bool :=
  py_contains "linkedin_post_generated".data r.memory.data ||
  py_contains "post".data (py_lower r.memory).data

/-- Line rendered for one retained activity entry (LinkedIn_post.py
line 199): the memory text followed by the creation timestamp cut to
its first ten characters. -/
def activityLine (r : MemResult) : String :=
  "- " ++ r.memory ++ " (Created: " ++ String.mk (r.created_at.data.take 10) ++ ")"

/-- The accumulation loop of `format_user_activity` (LinkedIn_post.py
lines 194 to 199). -/
def build_activities : List MemResult → List String
  | [] => []
  | r :: rest =>
    if matchesKeyword r then activityLine r :: build_activities rest
    else build_activities rest

/-- Embedding of `format_user_activity` (LinkedIn_post.py lines 189 to
201): on a failed or empty read, the new-user placeholder; otherwise
the first five retained lines joined by newlines, or a no-activity
placeholder when nothing is retained. -/
def format_user_activity (user_activity : UserDataResult) : String :=
  if !user_activity.success || user_activity.results.isEmpty then
    "No previous activity found - this is a new user."
  else
    let activities := build_activities user_activity.results
    if activities = [] then "No previous post activity found."
    else String.intercalate "\n" (activities.take 5)

/-- The part of the remote completion message consulted by
`generate_intelligent_linkedin_post`: the optional refusal text and
the parsed post body (`message.parsed.linkedin_post.linkedin_post`,
read only when no refusal is present). -/
structure PostMessage where
  refusal : Option String
  parsed : String

/-- The dictionary returned by `generate_intelligent_linkedin_post`,
with one optional field per key the Python code may set.  The refusal
branch (LinkedIn_post.py lines 120 to 124) sets only the success flag,
the error text and the token count under the key tokens; the success
branch (lines 151 to 163) sets the content and metric fields and the
token count under the key tokens_used. -/
structure PostGenResult where
  success : Bool
  error : Option String
  tokens : Option Nat
  post : Option String
  character_count : Option Nat
  word_count : Option Nat
  within_limits : Option Bool
  hashtags : Option (List String)
  tokens_used : Option Nat
  user_preferences_used : Option Bool
  activity_stored : Option Bool

/-- Embedding of the post-completion part of
`generate_intelligent_linkedin_post` (LinkedIn_post.py lines 116 to
163).  The remote completion outcome arrives as the message and its
total token count; the outcomes of the two external side reads and of
the memory write arrive as the two boolean flags (the success flag of
the preference read, and of `store_user_data`).  On refusal the
function returns early with the error text and the token count and
performs none of the later steps; otherwise it truncates the post,
computes word and character counts, the within-limits flag, and the
hashtag list, and reports the memory-write status. -/
def generate_intelligent_linkedin_post (analysis_response : PostMessage)
    (total_tokens : Nat) (user_preferences_success : Bool)
    (store_success : Bool) : PostGenResult :=
  match analysis_response.refusal with
  | some r =>
    { success := false
      error := some ("Model refused to respond: " ++ r)
      tokens := some total_tokens
      post := none, character_count := none, word_count := none
      within_limits := none, hashtags := none, tokens_used := none
      user_preferences_used := none, activity_stored := none }
  | none =>
    let generated_post := truncate_post analysis_response.parsed
    let word_count := (py_split_ws generated_post).length
    let char_count := generated_post.length
    { success := true
      error := none
      tokens := none
      post := some generated_post
      character_count := some char_count
      word_count := some word_count
      within_limits := some (decide (char_count ≤ 3000) && decide (word_count ≤ 600))
      hashtags := some (extract_hashtags generated_post)
      tokens_used := some total_tokens
      user_preferences_used := some user_preferences_success
      activity_stored := some store_success }

/-- Shape of the JSON body the comment endpoint ultimately sends to
the inbound caller (app.py): either the success response model
(lines 217 to 224) or the body built by the HTTP-exception handler
(lines 313 to 320), which carries only the success flag, the error
text and a timestamp.  Fields absent from a body are None. -/
structure CommentGenerationResponse where
  success : Bool
  status_code : Nat
  comments : Option (String × String × String)
  tokens_used : Option Nat
  activity_stored : Option Bool
  error : Option String

/-- Embedding of the endpoint `generate_linkedin_comment` (app.py
lines 174 to 235) downstream of the remote call: it receives the pair
returned by `analyze_linkedin_comment` and the success flag of the
memory write.  When the first component is None it raises an HTTP
exception with status 500 and detail text, which the registered
handler converts to a body with only the success flag and the error
text; the reported token count is not written into that body. -/
def generate_linkedin_comment
    (parse_result : Option linkedin_comment_data × Nat)
    (store_success : Bool) : CommentGenerationResponse :=
  match parse_result with
  | (none, _) =>
    { success := false, status_code := 500, comments := none
      tokens_used := none, activity_stored := none
      error := some "Failed to generate comments" }
  | (some result, tokens) =>
    { success := true, status_code := 200
      comments := some (result.linkedin_comment.linkedin_comment1,
        result.linkedin_comment.linkedin_comment2,
        result.linkedin_comment.linkedin_comment3)
      tokens_used := some tokens
      activity_stored := some store_success
      error := none }

/-- Shape of the JSON body the post endpoint sends to the inbound
caller (app.py lines 280 to 293 on success, lines 313 to 320 via the
HTTP-exception handler on failure). -/
structure PostGenerationResponse where
  success : Bool
  status_code : Nat
  post : Option String
  hashtags : Option (List String)
  tokens_used : Option Nat
  user_preferences_used : Option Bool
  activity_stored : Option Bool
  image_requested : Option Bool
  image_generated : Option Bool
  image_url : Option String
  image_price : Option String
  error : Option String

/-- Embedding of the endpoint `generate_linkedin_post` (app.py lines
239 to 304) downstream of the orchestrator call.  The image adapter
outcome arrives as an optional url-and-price pair (None models both a
thrown remote error and the unpacking failure on a None return).  The
second component of the result records the call made to the image
adapter: None when no call is made, otherwise the prompt passed, which
is the post field of the orchestrator result.  The code runs the image
block (lines 259 to 270) before checking the success flag (line 272),
so the adapter is called whenever the request asks for an image, even
when generation failed; the failure body built by the exception
handler carries only the success flag and the error text. -/
def generate_linkedin_post (result : PostGenResult) (image : Bool)
    (image_result : Option (String × String)) :
    PostGenerationResponse × Option (Option String) :=
  let imageCall : Option (Option String) :=
    if image then some result.post else none
  let imageOutcome : Option String × Option String × Bool :=
    if image then
      match image_result with
      | some (url, price) => (some url, some price, true)
      | none => (none, none, false)
    else (none, none, false)
  if result.success then
    ({ success := true, status_code := 200
       post := result.post
       hashtags := some (result.hashtags.getD [])
       tokens_used := some (result.tokens_used.getD 0)
       user_preferences_used := some (result.user_preferences_used.getD false)
       activity_stored := some (result.activity_stored.getD false)
       image_requested := some image
       image_generated := some imageOutcome.2.2
       image_url := imageOutcome.1
       image_price := imageOutcome.2.1
       error := none }, imageCall)
  else
    ({ success := false, status_code := 500
       post := none, hashtags := none, tokens_used := none
       user_preferences_used := none, activity_stored := none
       image_requested := none, image_generated := none
       image_url := none, image_price := none
       error := some ("Failed to generate post: " ++ result.error.getD "Unknown error") },
     imageCall)

/-- C1: for every generated post string p, if its length exceeds 3000
characters the returned post is the first 2950 characters of p with
the three-character ellipsis marker appended, has length exactly 2953
and ends with the marker; if its length is at most 3000 the post is
returned unchanged. -/
theorem truncate_post_policy (p : String) :
    (p.length > 3000 →
      truncate_post p = String.mk (p.data.take 2950) ++ "..." ∧
      (truncate_post p).length = 2953 ∧
      "...".data <:+ (truncate_post p).data) ∧
    (p.length ≤ 3000 → truncate_post p = p) := by
  constructor
  · intro h
    refine ⟨truncate_post_of_gt h, truncate_post_length_of_gt h, ?_⟩
    rw [truncate_post_of_gt h, dots_eq, string_mk_append]
    exact List.suffix_append (p.data.take 2950) ['.', '.', '.']
  · exact truncate_post_of_le

/-- Concrete post body of length 3100 used as witness input. -/
def longPost : String := String.mk (List.replicate 3100 'a')

/-- Concrete post body of length 2999 used as witness input. -/
def shortPost : String := String.mk (List.replicate 2999 'b')

theorem longPost_length : longPost.length = 3100 := by
  unfold longPost
  rw [string_length_mk, List.length_replicate]

theorem shortPost_length : shortPost.length = 2999 := by
  unfold shortPost
  rw [string_length_mk, List.length_replicate]

theorem truncate_post_policy_witness :
    (truncate_post longPost).length = 2953 ∧ truncate_post shortPost = shortPost :=
  ⟨((truncate_post_policy longPost).1 (by rw [longPost_length]; omega)).2.1,
    (truncate_post_policy shortPost).2 (by rw [shortPost_length]; omega)⟩

/-- C4: resolving the style constraint returns the documented
character limit for each of the four styles, and any style string
outside the mapping falls back to the documented default of 1000. -/
theorem character_limit_table :
    character_limit "Professional" = "1200" ∧
    character_limit "Friendly" = "800" ∧
    character_limit "Long" = "1250" ∧
    character_limit "Short" = "400" ∧
    ∀ s : String, s ∉ ["Professional", "Friendly", "Long", "Short"] →
      character_limit s = "1000" := by
  refine ⟨rfl, rfl, rfl, rfl, ?_⟩
  intro s hs
  simp only [List.mem_cons, List.not_mem_nil, or_false, not_or] at hs
  obtain ⟨h1, h2, h3, h4⟩ := hs
  simp [character_limit, style_limits, h1, h2, h3, h4]

theorem character_limit_table_witness : character_limit "Casual" = "1000" :=
  character_limit_table.2.2.2.2 "Casual" (by decide)

theorem scanHashtags_shape (fuel : Nat) :
    ∀ l t, t ∈ scanHashtags fuel l →
      ∃ w, w ≠ [] ∧ w.all isWordChar = true ∧ t = '#' :: w := by
  induction fuel with
  | zero => intro l t ht; simp [scanHashtags] at ht
  | succ fuel ih =>
    intro l t ht
    match l with
    | [] => simp [scanHashtags] at ht
    | c :: rest =>
      simp only [scanHashtags] at ht
      by_cases hc : c = '#'
      · rw [if_pos hc] at ht
        by_cases hw : rest.takeWhile isWordChar = []
        · rw [if_pos hw] at ht; exact ih rest t ht
        · rw [if_neg hw] at ht
          rcases List.mem_cons.mp ht with h | h
          · refine ⟨rest.takeWhile isWordChar, hw, ?_, h⟩
            exact List.all_eq_true.mpr fun x hx => List.mem_takeWhile_imp hx
          · exact ih _ t h
      · rw [if_neg hc] at ht; exact ih rest t ht

/-- C5: hashtag extraction on the documented example input yields the
two expected tags in order, and in general every extracted string is a
hash sign immediately followed by one or more word characters. -/
theorem extract_hashtags_spec :
    extract_hashtags "Great insight! #Leadership #Growth2024 see more" =
      ["#Leadership", "#Growth2024"] ∧
    ∀ s t, t ∈ extract_hashtags s →
      ∃ w, w ≠ [] ∧ w.all isWordChar = true ∧ t = String.mk ('#' :: w) := by
  refine ⟨by decide, ?_⟩
  intro s t ht
  obtain ⟨u, hu, hm⟩ := List.mem_map.mp ht
  obtain ⟨w, hw1, hw2, hw3⟩ := scanHashtags_shape _ _ u hu
  exact ⟨w, hw1, hw2, by rw [← hm, hw3]⟩

theorem extract_hashtags_spec_witness :
    ∃ w, w ≠ [] ∧ w.all isWordChar = true ∧
      "#Leadership" = String.mk ('#' :: w) :=
  extract_hashtags_spec.2 "Great insight! #Leadership #Growth2024 see more"
    "#Leadership" (by decide)

/-- C8: a memory read that returns no prior results or failed yields
the documented new-user placeholder text from both formatters, which
is never the empty string; both formatters are total functions, so no
exception can arise. -/
theorem new_user_placeholder (u : UserDataResult)
    (h : u.success = false ∨ u.results = []) :
    format_user_preferences u =
      "No previous preferences found - this is a new user." ∧
    format_user_activity u =
      "No previous activity found - this is a new user." ∧
    format_user_preferences u ≠ "" ∧ format_user_activity u ≠ "" := by
  have hcond : (!u.success || u.results.isEmpty) = true := by
    rcases h with h | h
    · simp [h]
    · simp [h]
  have hp : format_user_preferences u =
      "No previous preferences found - this is a new user." := by
    simp [format_user_preferences, hcond]
  have ha : format_user_activity u =
      "No previous activity found - this is a new user." := by
    simp [format_user_activity, hcond]
  refine ⟨hp, ha, ?_, ?_⟩
  · rw [hp]; decide
  · rw [ha]; decide

theorem new_user_placeholder_witness :
    format_user_preferences ⟨false, []⟩ =
      "No previous preferences found - this is a new user." ∧
    format_user_activity ⟨false, []⟩ =
      "No previous activity found - this is a new user." ∧
    format_user_preferences ⟨false, []⟩ ≠ "" ∧
    format_user_activity ⟨false, []⟩ ≠ "" :=
  new_user_placeholder ⟨false, []⟩ (Or.inl rfl)

/-- C2 (code defect): the comment parse step performs no
structural-completeness check; a non-refused completion whose first
variant field is the empty string is returned as a success value
carrying that empty variant. -/
theorem comment_parse_accepts_empty_variant :
    analyze_linkedin_comment ⟨none, ⟨"", "strong take", "well said"⟩⟩ 7 =
      (some ⟨⟨"", "strong take", "well said"⟩⟩, 7) ∧
    "" ∈ comment_result_strings
      (analyze_linkedin_comment ⟨none, ⟨"", "strong take", "well said"⟩⟩ 7) :=
  ⟨rfl, by decide⟩

/-- C3 counterexample: on a refusal with reason text policy and 42
reported tokens the comment parse step returns the pair of None and
42; the returned value carries no string at all, in particular not the
refusal reason, so the claim that every refusal failure value carries
the refusal reason text is false on the comment path. -/
theorem comment_refusal_reason_not_carried :
    analyze_linkedin_comment ⟨some "policy", ⟨"a", "b", "c"⟩⟩ 42 = (none, 42) ∧
    "policy" ∉ comment_result_strings
      (analyze_linkedin_comment ⟨some "policy", ⟨"a", "b", "c"⟩⟩ 42) :=
  ⟨rfl, by decide⟩

/-- C3 amended: for every refusal, both parse steps return a failure
value rather than raising, with no content fields populated and with
the reported token count preserved; the post path additionally carries
the refusal reason text inside its error field, while the comment path
only logs the reason and carries the token count alone. -/
theorem refusal_failure_paths (reason : String) (tok : Nat)
    (cm : linkedin_comment_model) (body : String) (ps ss : Bool) :
    analyze_linkedin_comment ⟨some reason, cm⟩ tok = (none, tok) ∧
    (generate_intelligent_linkedin_post ⟨some reason, body⟩ tok ps ss).success
      = false ∧
    (generate_intelligent_linkedin_post ⟨some reason, body⟩ tok ps ss).error =
      some ("Model refused to respond: " ++ reason) ∧
    (generate_intelligent_linkedin_post ⟨some reason, body⟩ tok ps ss).tokens =
      some tok ∧
    (generate_intelligent_linkedin_post ⟨some reason, body⟩ tok ps ss).post
      = none ∧
    (generate_intelligent_linkedin_post ⟨some reason, body⟩ tok ps ss).hashtags
      = none ∧
    (generate_intelligent_linkedin_post ⟨some reason, body⟩ tok ps ss).activity_stored
      = none :=
  ⟨rfl, rfl, rfl, rfl, rfl, rfl, rfl⟩

/-- C6 (code defect): a comment generation whose remote completion is
refused reports 42 tokens from the remote call, yet the body the
endpoint sends to the inbound caller is the 500 error body, which
carries no token count; the token usage of the call is dropped on the
failure path instead of being propagated. -/
theorem comment_endpoint_drops_tokens_on_refusal :
    (analyze_linkedin_comment ⟨some "cannot assist", ⟨"a", "b", "c"⟩⟩ 42).2
      = 42 ∧
    (generate_linkedin_comment
      (analyze_linkedin_comment ⟨some "cannot assist", ⟨"a", "b", "c"⟩⟩ 42)
      false).success = false ∧
    (generate_linkedin_comment
      (analyze_linkedin_comment ⟨some "cannot assist", ⟨"a", "b", "c"⟩⟩ 42)
      false).status_code = 500 ∧
    (generate_linkedin_comment
      (analyze_linkedin_comment ⟨some "cannot assist", ⟨"a", "b", "c"⟩⟩ 42)
      false).tokens_used = none :=
  ⟨rfl, rfl, rfl, rfl⟩

/-- C7 (code defect): on a refused post generation the orchestrator
does return the failure with error detail and token count and skips
truncation, hashtag and metric computation and the memory write (all
content fields are None), but the endpoint runs its image block before
checking the success flag, so with image requested the image adapter
is invoked, with the missing post (None) as its prompt, contradicting
the claim that it is not invoked. -/
theorem post_refusal_image_adapter_invoked :
    (generate_intelligent_linkedin_post ⟨some "declined", ""⟩ 17 true true).success
      = false ∧
    (generate_intelligent_linkedin_post ⟨some "declined", ""⟩ 17 true true).error =
      some "Model refused to respond: declined" ∧
    (generate_intelligent_linkedin_post ⟨some "declined", ""⟩ 17 true true).tokens =
      some 17 ∧
    (generate_intelligent_linkedin_post ⟨some "declined", ""⟩ 17 true true).post
      = none ∧
    (generate_intelligent_linkedin_post ⟨some "declined", ""⟩ 17 true true).character_count
      = none ∧
    (generate_intelligent_linkedin_post ⟨some "declined", ""⟩ 17 true true).hashtags
      = none ∧
    (generate_intelligent_linkedin_post ⟨some "declined", ""⟩ 17 true true).activity_stored
      = none ∧
    (generate_linkedin_post
      (generate_intelligent_linkedin_post ⟨some "declined", ""⟩ 17 true true)
      true none).2 = some none :=
  ⟨rfl, rfl, rfl, rfl, rfl, rfl, rfl, rfl⟩

/-- Concrete memory read for the activity-ordering counterexample: six
entries, all matching the keyword filter, listed in the relevance
order of the search, with creation dates strictly increasing down the
list so that the last entry is the most recent one. -/
def exActivity : UserDataResult :=
  ⟨true,
    [⟨"post one", 0, "2024-01-01"⟩, ⟨"post two", 0, "2024-01-02"⟩,
     ⟨"post three", 0, "2024-01-03"⟩, ⟨"post four", 0, "2024-01-04"⟩,
     ⟨"post five", 0, "2024-01-05"⟩, ⟨"post six", 0, "2024-01-06"⟩]⟩

set_option maxRecDepth 40000 in
/-- C9 counterexample: on `exActivity` the formatted history displays
the first five entries of the search order and omits the entry with
the latest creation date (post six, 2024-01-06), so the retained
entries are not the five most recent; the code caps to the first five
retained entries in result order instead. -/
theorem activity_take_not_most_recent :
    format_user_activity exActivity =
      "- post one (Created: 2024-01-01)\n- post two (Created: 2024-01-02)\n- post three (Created: 2024-01-03)\n- post four (Created: 2024-01-04)\n- post five (Created: 2024-01-05)" ∧
    py_contains "post six".data (format_user_activity exActivity).data = false :=
  ⟨by decide, by decide⟩

theorem build_activities_eq (l : List MemResult) :
    build_activities l = (l.filter matchesKeyword).map activityLine := by
  induction l with
  | nil => rfl
  | cons r rest ih =>
    by_cases h : matchesKeyword r
    · simp [build_activities, List.filter_cons, h, ih]
    · simp [build_activities, List.filter_cons, h, ih]

/-- C9 amended: for every successful, non-empty memory read whose
results contain at least one entry matching the topical keyword
filter, the formatted activity history is the newline join of the
first five (at most) matching entries in the order returned by the
search, each rendered with its creation timestamp cut to its first ten
characters; the retained five are the first five in result order, not
the five most recent. -/
theorem activity_filter_take_truncate (u : UserDataResult)
    (hs : u.success = true) (hr : u.results ≠ [])
    (hm : u.results.filter matchesKeyword ≠ []) :
    format_user_activity u =
      String.intercalate "\n"
        (((u.results.filter matchesKeyword).map activityLine).take 5) := by
  have hcond : (!u.success || u.results.isEmpty) = false := by
    simp [hs, hr]
  have hb : build_activities u.results ≠ [] := by
    rw [build_activities_eq]
    simpa using hm
  simp only [format_user_activity, hcond, Bool.false_eq_true, if_false]
  rw [if_neg (by rw [build_activities_eq] at hb ⊢; exact hb), build_activities_eq]

theorem activity_filter_take_truncate_witness :
    format_user_activity exActivity =
      String.intercalate "\n"
        (((exActivity.results.filter matchesKeyword).map activityLine).take 5) :=
  activity_filter_take_truncate exActivity rfl (by decide) (by decide)

/-- C10: every successful result of the post orchestrator carries a
post of length at most 3000, a character count equal to that length,
and a within-limits flag that reduces to the word-count bound alone,
since the character bound always holds after truncation. -/
theorem post_success_within_limits (m : PostMessage) (tok : Nat) (ps ss : Bool)
    (h : (generate_intelligent_linkedin_post m tok ps ss).success = true) :
    ∃ p, (generate_intelligent_linkedin_post m tok ps ss).post = some p ∧
      p.length ≤ 3000 ∧
      (generate_intelligent_linkedin_post m tok ps ss).character_count =
        some p.length ∧
      (generate_intelligent_linkedin_post m tok ps ss).within_limits =
        some (decide ((py_split_ws p).length ≤ 600)) := by
  cases hm : m.refusal with
  | some r =>
    rw [show (generate_intelligent_linkedin_post m tok ps ss).success = false by
      simp [generate_intelligent_linkedin_post, hm]] at h
    exact absurd h (by decide)
  | none =>
    refine ⟨truncate_post m.parsed, ?_, truncate_post_length_le _, ?_, ?_⟩
    · simp [generate_intelligent_linkedin_post, hm]
    · simp [generate_intelligent_linkedin_post, hm]
    · simp only [generate_intelligent_linkedin_post, hm]
      rw [decide_eq_true (truncate_post_length_le m.parsed), Bool.true_and]

theorem post_success_within_limits_witness :
    ∃ p,
      (generate_intelligent_linkedin_post ⟨none, "hello #world"⟩ 5 true true).post
        = some p ∧
      p.length ≤ 3000 ∧
      (generate_intelligent_linkedin_post ⟨none, "hello #world"⟩ 5 true true).character_count
        = some p.length ∧
      (generate_intelligent_linkedin_post ⟨none, "hello #world"⟩ 5 true true).within_limits
        = some (decide ((py_split_ws p).length ≤ 600)) :=
  post_success_within_limits ⟨none, "hello #world"⟩ 5 true true rfl
